import Mathlib

/-!
Verification of the task-orchestration core of Shinobu-VoiceTranslator.

Shallow embedding of:
  * `app/common/database/entity/task.py`   (Task dataclass, TaskStatus enum)
  * `app/services/base_service.py`         (BaseService: cancel / restart /
    `_onWorkerProgress` / `_onWorkerFinished`)
  * `app/services/downloadservice/bilibili_service.py` (BilibiliService:
    createTask / start / `_onDownloadSuccess` / `_onDownloadFailed`)
  * `app/services/downloadservice/base_download_service.py`
    (`_createDownloadTask`, `_handleDownloadSuccess`)
  * `app/common/database/database_service.py` (DatabaseService: save_task /
    get_task / delete_task / update_task_status / `_row_to_task`)

Modelling conventions:
  * `datetime` values are modelled by `Nat` timestamps; every call of
    `datetime.now()` inside one operation is modelled by that operation's
    single `now` parameter.  `isoformat` / `fromisoformat` (CPython stdlib,
    mutually inverse on datetimes) are modelled by storing the timestamp
    itself in the row.
  * Python floats (`progress`, `duration`) are modelled by `Rat`; the
    program only ever stores exact values (0.0, 100.0, reported percents).
  * The JSON-shaped Task fields (`outputPaths`, `tags` : list of strings;
    `config`, `metadata` : string-keyed dict) are modelled by `PyVal`;
    `json.dumps` / `json.loads` (stdlib, external collaborator) are modelled
    by the `Col` cell type: a cell either holds the well-formed JSON text of
    a `PyVal`, holds text rejected by `json.loads`, or is SQL NULL.
  * The in-flight futures dict `self.futures` is modelled by its key set
    (a `List String`); the stored `Future` objects are only ever used as
    callback carriers, never inspected by the orchestration code under
    verification.
  * Qt signal emissions and executor submissions are recorded in an
    explicit event trace (`Event`), in program order.  `DatabaseService`'s
    own `taskSaved` signal is not a lifecycle event and is represented by
    the `dbSave` trace entry itself.
  * Exceptions are modelled with `Except` where the Python code can raise,
    and fallible sqlite machinery inside a `try` block is driven by an
    explicit `DbOutcome` oracle.
-/

namespace Shinobu

/-- Runtime value of a JSON-shaped Task field (`outputPaths`/`tags` are
lists of path/tag strings, `config`/`metadata` are string-keyed dicts in
this program). -/
inductive PyVal where
  | list (xs : List String)
  | dict (kvs : List (String × String))
deriving DecidableEq, Repr

/-- `TaskStatus` enum from `entity/task.py`. -/
inductive TaskStatus where
  | pending
  | running
  | success
  | failed
  | cancelled
  | paused
deriving DecidableEq, Repr

/-- `TaskStatus.value`: the string payload of each enum member. -/
def TaskStatus.value : TaskStatus → String
  | .pending => "pending"
  | .running => "running"
  | .success => "success"
  | .failed => "failed"
  | .cancelled => "cancelled"
  | .paused => "paused"

/-- `TaskStatus(s)` enum construction from a string: `some` member on a
valid value, `none` models the `ValueError` raised on anything else. -/
def TaskStatus.ofValue (s : String) : Option TaskStatus :=
  if s = "pending" then some .pending
  else if s = "running" then some .running
  else if s = "success" then some .success
  else if s = "failed" then some .failed
  else if s = "cancelled" then some .cancelled
  else if s = "paused" then some .paused
  else none

/-- Terminal statuses (`Task.isFinished` in `entity/task.py`). -/
def TaskStatus.isTerminal : TaskStatus → Bool
  | .success | .failed | .cancelled => true
  | _ => false

/-- The `Task` dataclass of `entity/task.py` (all persisted fields). -/
structure Task where
  id : String
  type : String
  status : TaskStatus
  name : String
  fileName : String
  description : String
  url : String
  inputPath : String
  outputPath : String
  outputPaths : PyVal
  logFile : String
  progress : Rat
  speed : String
  eta : String
  currentStep : String
  totalSteps : Int
  currentStepIndex : Int
  fileSize : Int
  duration : Rat
  createTime : Option Nat
  startTime : Option Nat
  endTime : Option Nat
  updateTime : Option Nat
  errorMsg : String
  errorCode : String
  retryCount : Int
  maxRetry : Int
  config : PyVal
  metadata : PyVal
  tags : PyVal
  category : String
  priority : Int
deriving DecidableEq, Repr

/-- Observable side effects of one orchestration operation, in program
order: database writes, Qt lifecycle-signal emissions, submissions to the
TaskExecutor, and log lines. -/
inductive Event where
  | dbSave (t : Task)
  | taskCreated (t : Task)
  | taskUpdated (t : Task)
  | taskFinished (t : Task) (success : Bool) (errorMsg : String)
  | submit (taskId : String)
  | log (level : String) (message : String)
deriving DecidableEq, Repr

/-- Key set of the in-flight futures dict after `del futures[id]`
(`filter` is exact on a dict's key set: keys are unique). -/
def eraseKey (fut : List String) (id : String) : List String :=
  fut.filter (fun k => k != id)

/-- Key set of the in-flight futures dict after `futures[id] = future`. -/
def insertKey (fut : List String) (id : String) : List String :=
  if id ∈ fut then fut else fut ++ [id]

/-- Result of a `bool`-returning service operation: return value, the task
object after in-place mutation, the futures key set, and the event trace. -/
structure OpResult where
  retB : Bool
  task : Task
  futures : List String
  trace : List Event
deriving DecidableEq, Repr

/-- Result of a `None`-returning handler. -/
structure HandlerResult where
  task : Task
  futures : List String
  trace : List Event
deriving DecidableEq, Repr

namespace BaseService

/-- `BaseService.cancel` (base_service.py lines 87-103): if the task id is
in the futures map, remove it, set status CANCELLED, save, emit
`taskUpdated`, log, return True; otherwise return False.  `db.save_task`
sets `updateTime` on the task object before writing (database_service.py
line 95). -/
def cancel (fut : List String) (t : Task) (now : Nat) : OpResult :=
  if t.id ∈ fut then
    let t2 : Task := { t with status := .cancelled, updateTime := some now }
    { retB := true
      task := t2
      futures := eraseKey fut t.id
      trace := [.dbSave t2, .taskUpdated t2,
                .log "INFO" ("任务已取消: " ++ t.name)] }
  else
    { retB := false, task := t, futures := fut, trace := [] }

/-- `BaseService._onWorkerFinished` (base_service.py lines 148-166): set
`endTime`; on success set status SUCCESS and progress 100, otherwise set
status FAILED and `errorMsg`; save; emit `taskFinished`; drop the id from
the futures map.  The Python method returns None and raises nothing. -/
def onWorkerFinished (fut : List String) (t : Task) (now : Nat)
    (success : Bool) (errorMsg : String) : HandlerResult :=
  let t1 : Task := { t with endTime := some now }
  let t2 : Task :=
    if success then { t1 with status := .success, progress := 100 }
    else { t1 with status := .failed, errorMsg := errorMsg }
  let logEv : Event :=
    if success then .log "INFO" ("任务完成: " ++ t.name)
    else .log "ERROR" ("任务失败: " ++ t.name ++ " - " ++ errorMsg)
  let t3 : Task := { t2 with updateTime := some now }
  { task := t3
    futures := eraseKey fut t.id
    trace := [logEv, .dbSave t3, .taskFinished t3 success errorMsg] }

/-- `BaseService._onWorkerProgress` (base_service.py lines 140-146): update
progress/speed/eta, save, emit `taskUpdated`. -/
def onWorkerProgress (fut : List String) (t : Task) (now : Nat)
    (progress : Rat) (speed : String) (eta : String) : HandlerResult :=
  let t2 : Task := { t with progress := progress, speed := speed, eta := eta,
                            updateTime := some now }
  { task := t2, futures := fut, trace := [.dbSave t2, .taskUpdated t2] }

/-- `BaseService.restart` (base_service.py lines 68-85): drop the id from
the futures map if present, reset status/progress/errorMsg/startTime/
endTime, save, then call `self.start(task)` (dynamic dispatch, passed in
as `startFn`). -/
def restart (startFn : List String → Task → Nat → OpResult)
    (fut : List String) (t : Task) (now : Nat) : OpResult :=
  let fut1 := eraseKey fut t.id
  let t1 : Task := { t with status := .pending, progress := 0,
                            errorMsg := "", startTime := none, endTime := none }
  let t2 : Task := { t1 with updateTime := some now }
  let r := startFn fut1 t2 now
  { r with trace := .dbSave t2 :: r.trace }

end BaseService

namespace BilibiliService

/-- Python `\w` word character (ASCII range; the IDs this program matches
are ASCII alphanumerics). -/
def isWordChar (c : Char) : Bool := c.isAlphanum || c = '_'

/-- Leftmost match of the pattern BV followed by one or more word
characters, as in `re.search` over the character list. -/
def findBv : List Char → Option (List Char)
  | [] => none
  | c1 :: rest =>
    match c1, rest with
    | 'B', 'V' :: c :: rest2 =>
      if isWordChar c then
        some ('B' :: 'V' :: c :: rest2.takeWhile isWordChar)
      else findBv rest
    | _, _ => findBv rest

/-- `BilibiliService._extract_bv_id` (bilibili_service.py lines 237-244). -/
def extractBvId (url : String) : Option String :=
  if url.startsWith "BV" then some url
  else (findBv url.toList).map List.asString

/-- `BilibiliService.start` (bilibili_service.py lines 182-224): reject if
the id is already in flight (log, return False); otherwise set status
RUNNING and `startTime`, save, emit `taskUpdated`, submit the download job
to the executor, record the Future, log, return True. -/
def start (fut : List String) (t : Task) (now : Nat) : OpResult :=
  if t.id ∈ fut then
    { retB := false, task := t, futures := fut,
      trace := [.log "WARNING" ("任务已在运行: " ++ t.fileName)] }
  else
    let t2 : Task := { t with status := .running, startTime := some now,
                              updateTime := some now }
    { retB := true
      task := t2
      futures := insertKey fut t.id
      trace := [.dbSave t2, .taskUpdated t2, .submit t.id,
                .log "INFO" ("开始下载B站视频: " ++ t.url)] }

/-- `Task(type=..., status=..., url=..., source="bilibili", fileName=...,
extraParams=kwargs)` as called by `BilibiliService.createTask`
(bilibili_service.py lines 162-169).  The `Task` dataclass of
`entity/task.py` has no init parameter named `source` (it is a property)
and none named `extraParams`, so this call raises `TypeError` in CPython. -/
def taskCtorBilibili (_videoId : String) : Except String Task :=
  .error "TypeError: __init__() got an unexpected keyword argument 'source'"

/-- `BilibiliService.createTask` (bilibili_service.py lines 154-180):
invalid URL → log, return None; otherwise construct the Task (which
raises, see `taskCtorBilibili`), then save, emit `taskCreated`, call
`start`.  First component: `.ok` with the Python return value, or
`.error` when an exception propagates to the caller; second component:
the events emitted before returning/raising. -/
def createTask (fut : List String) (url : String) (now : Nat) :
    Except String (Option Task) × List String × List Event :=
  match extractBvId url with
  | none => (.ok none, fut, [.log "ERROR" ("无效的B站链接: " ++ url)])
  | some vid =>
    match taskCtorBilibili vid with
    | .error e => (.error e, fut, [])
    | .ok t =>
      let t1 : Task := { t with updateTime := some now }
      let r := start fut t1 now
      (.ok (some r.task), r.futures,
        [.dbSave t1, .taskCreated t1] ++ r.trace)

/-- Modelled from the spec (§4.1, §7): the `FutureFailed` error object of
`app/common/concurrent/future.py` (file not present under src/) carries
the causing exception; `_onDownloadFailed` also accepts any other error
object, using its string form. -/
inductive ErrObj where
  | futureFailed (exceptionMsg : String)
  | plain (reprMsg : String)
deriving DecidableEq, Repr

/-- `str(error.exception) if hasattr(error, 'exception') else str(error)`
(bilibili_service.py line 234). -/
def errMsgOf : ErrObj → String
  | .futureFailed e => e
  | .plain r => r

/-- `BilibiliService._onDownloadSuccess` (bilibili_service.py lines
226-230): set `outputPath` and progress 100, then delegate to
`_onWorkerFinished(task, True, "下载完成")`. -/
def onDownloadSuccess (fut : List String) (t : Task) (now : Nat)
    (outputPath : String) : HandlerResult :=
  BaseService.onWorkerFinished fut
    { t with outputPath := outputPath, progress := 100 } now true "下载完成"

/-- `BilibiliService._onDownloadFailed` (bilibili_service.py lines
232-235): extract the message from the error object and delegate to
`_onWorkerFinished(task, False, error_msg)`. -/
def onDownloadFailed (fut : List String) (t : Task) (now : Nat)
    (error : ErrObj) : HandlerResult :=
  BaseService.onWorkerFinished fut t now false (errMsgOf error)

end BilibiliService

namespace BaseDownloadService

/-- `BaseDownloadService._createDownloadTask` (base_download_service.py
lines 83-113): reject if the id is already in flight (log, return False);
otherwise set status RUNNING and `startTime`, save, emit `taskUpdated`,
submit `task_func` to the executor, record the Future, return True. -/
def createDownloadTask (fut : List String) (t : Task) (now : Nat) : OpResult :=
  if t.id ∈ fut then
    { retB := false, task := t, futures := fut,
      trace := [.log "WARNING" ("任务已在运行: " ++ t.fileName)] }
  else
    let t2 : Task := { t with status := .running, startTime := some now,
                              updateTime := some now }
    { retB := true
      task := t2
      futures := insertKey fut t.id
      trace := [.dbSave t2, .taskUpdated t2, .submit t.id] }

end BaseDownloadService

/-- A TEXT cell of one of the four JSON columns of the `tasks` table:
either the well-formed JSON text of a `PyVal` (as produced by
`json.dumps`; such text is never empty, hence always truthy), or text
that `json.loads` rejects, or SQL NULL. -/
inductive Col where
  | json (v : PyVal)
  | malformed (s : String)
  | null
deriving DecidableEq, Repr

/-- The JSON-handling loop of `DatabaseService._row_to_task`
(database_service.py lines 369-377) for one column: a truthy cell is
parsed, falling back to `[]`/`fallback` on a parse error; a falsy cell
(NULL or empty text) is replaced by the fallback directly.  `json.dumps`
output is never falsy, so every `.json` cell parses to its value; a
`.malformed` cell lands on the fallback both when its text is empty
(falsy) and when `json.loads` raises. -/
def decodeJsonCol (fallback : PyVal) : Col → PyVal
  | .json v => v
  | .malformed _ => fallback
  | .null => fallback

/-- A cell that is malformed JSON text, empty text, or NULL. -/
def Col.isBadOrNull : Col → Bool
  | .json _ => false
  | .malformed _ => true
  | .null => true

/-- One row of the `tasks` table (schema in `_init_database`,
database_service.py lines 31-66).  ISO-8601 timestamp text is modelled by
the timestamp value it encodes (`isoformat`/`fromisoformat` are mutually
inverse); `status` is stored as its enum value string. -/
structure Row where
  id : String
  type : String
  status : String
  name : String
  fileName : String
  description : String
  url : String
  inputPath : String
  outputPath : String
  outputPaths : Col
  logFile : String
  progress : Rat
  speed : String
  eta : String
  currentStep : String
  totalSteps : Int
  currentStepIndex : Int
  fileSize : Int
  duration : Rat
  createTime : Option Nat
  startTime : Option Nat
  endTime : Option Nat
  updateTime : Option Nat
  errorMsg : String
  errorCode : String
  retryCount : Int
  maxRetry : Int
  config : Col
  metadata : Col
  tags : Col
  category : String
  priority : Int
deriving DecidableEq, Repr

/-- `Task.toDict` (entity/task.py lines 285-321) composed with the row
layout: enum status becomes its value string, the JSON-shaped fields are
dumped (`json.dumps`), timestamps keep their value (isoformat text). -/
def Task.toRow (t : Task) : Row where
  id := t.id
  type := t.type
  status := t.status.value
  name := t.name
  fileName := t.fileName
  description := t.description
  url := t.url
  inputPath := t.inputPath
  outputPath := t.outputPath
  outputPaths := .json t.outputPaths
  logFile := t.logFile
  progress := t.progress
  speed := t.speed
  eta := t.eta
  currentStep := t.currentStep
  totalSteps := t.totalSteps
  currentStepIndex := t.currentStepIndex
  fileSize := t.fileSize
  duration := t.duration
  createTime := t.createTime
  startTime := t.startTime
  endTime := t.endTime
  updateTime := t.updateTime
  errorMsg := t.errorMsg
  errorCode := t.errorCode
  retryCount := t.retryCount
  maxRetry := t.maxRetry
  config := .json t.config
  metadata := .json t.metadata
  tags := .json t.tags
  category := t.category
  priority := t.priority

/-- `DatabaseService._row_to_task` (database_service.py lines 363-380)
followed by `Task(**data)` with `Task.__post_init__` (entity/task.py
lines 195-208): decode the four JSON columns with their fallbacks, turn
the status string back into the enum (`none` models the `ValueError`
raised on an invalid status string, which propagates out of
`_row_to_task`). -/
def rowToTask (r : Row) : Option Task :=
  match TaskStatus.ofValue r.status with
  | none => none
  | some st => some
    { id := r.id
      type := r.type
      status := st
      name := r.name
      fileName := r.fileName
      description := r.description
      url := r.url
      inputPath := r.inputPath
      outputPath := r.outputPath
      outputPaths := decodeJsonCol (.list []) r.outputPaths
      logFile := r.logFile
      progress := r.progress
      speed := r.speed
      eta := r.eta
      currentStep := r.currentStep
      totalSteps := r.totalSteps
      currentStepIndex := r.currentStepIndex
      fileSize := r.fileSize
      duration := r.duration
      createTime := r.createTime
      startTime := r.startTime
      endTime := r.endTime
      updateTime := r.updateTime
      errorMsg := r.errorMsg
      errorCode := r.errorCode
      retryCount := r.retryCount
      maxRetry := r.maxRetry
      config := decodeJsonCol (.dict []) r.config
      metadata := decodeJsonCol (.dict []) r.metadata
      tags := decodeJsonCol (.list []) r.tags
      category := r.category
      priority := r.priority }

/-- The `tasks` table: `id` is the PRIMARY KEY, so a well-formed table
holds at most one row per id; `INSERT OR REPLACE` keyed on `id`. -/
def Db := List Row

/-- `INSERT OR REPLACE INTO tasks` (database_service.py line 103): any
existing row with the same id is replaced. -/
def dbInsert (db : Db) (r : Row) : Db :=
  (db.filter (fun q => q.id != r.id)) ++ [r]

/-- `SELECT * FROM tasks WHERE id = ?` with `fetchone`. -/
def dbLookup (db : Db) (id : String) : Option Row :=
  db.find? (fun q => q.id == id)

/-- Oracle for the sqlite machinery inside a `try` block of
`DatabaseService`: either every sqlite call succeeds, or some call raises
the given exception. -/
inductive DbOutcome where
  | ok
  | raise (e : String)
deriving DecidableEq, Repr

/-- The `try` body of `DatabaseService.save_task` (database_service.py
lines 91-110): connect, set `task.updateTime = datetime.now()`, dump the
task to a row, `INSERT OR REPLACE`, commit, emit `taskSaved`, return
True.  A fault is modelled as striking before the task mutation. -/
def saveTaskBody (db : Db) (t : Task) (now : Nat) (io : DbOutcome) :
    Except String (Bool × Db × Task) :=
  match io with
  | .raise e => .error e
  | .ok =>
    let t2 : Task := { t with updateTime := some now }
    .ok (true, dbInsert db t2.toRow, t2)

/-- `DatabaseService.save_task` (database_service.py lines 89-114): the
`try` body, with any exception caught, printed, and turned into a False
return (task and table untouched by the model's fault point). -/
def save_task (db : Db) (t : Task) (now : Nat) (io : DbOutcome) :
    Bool × Db × Task :=
  match saveTaskBody db t now io with
  | .ok r => r
  | .error _ => (false, db, t)

/-- The `try` body of `DatabaseService.get_task` (database_service.py
lines 118-129): select the row by id; no row → None; otherwise
`_row_to_task` (whose `ValueError` on a bad status string escapes the
body). -/
def getTaskBody (db : Db) (id : String) (io : DbOutcome) :
    Except String (Option Task) :=
  match io with
  | .raise e => .error e
  | .ok =>
    match dbLookup db id with
    | none => .ok none
    | some r =>
      match rowToTask r with
      | none => .error "ValueError: invalid TaskStatus"
      | some t => .ok (some t)

/-- `DatabaseService.get_task` (database_service.py lines 116-133): any
exception is caught, printed, and turned into a None return. -/
def get_task (db : Db) (id : String) (io : DbOutcome) : Option Task :=
  match getTaskBody db id io with
  | .ok r => r
  | .error _ => none

/-- The `try` body of `DatabaseService.delete_task` (database_service.py
lines 229-240): delete the row by id; return True exactly when a row was
affected. -/
def deleteTaskBody (db : Db) (id : String) (io : DbOutcome) :
    Except String (Bool × Db) :=
  match io with
  | .raise e => .error e
  | .ok =>
    let db2 := db.filter (fun q => q.id != id)
    .ok (db.any (fun q => q.id == id), db2)

/-- `DatabaseService.delete_task` (database_service.py lines 227-244):
any exception is caught, printed, and turned into a False return. -/
def delete_task (db : Db) (id : String) (io : DbOutcome) : Bool × Db :=
  match deleteTaskBody db id io with
  | .ok r => r
  | .error _ => (false, db)

/-- The `try` body of `DatabaseService.update_task_status`
(database_service.py lines 263-275): set status and updateTime on the
row with the given id (UPDATE matches zero or one row; True is returned
regardless of the match count). -/
def updateTaskStatusBody (db : Db) (id : String) (status : TaskStatus)
    (now : Nat) (io : DbOutcome) : Except String (Bool × Db) :=
  match io with
  | .raise e => .error e
  | .ok =>
    let db2 := db.map (fun q =>
      if q.id == id then { q with status := status.value, updateTime := some now }
      else q)
    .ok (true, db2)

/-- `DatabaseService.update_task_status` (database_service.py lines
261-279): any exception is caught, printed, and turned into a False
return. -/
def update_task_status (db : Db) (id : String) (status : TaskStatus)
    (now : Nat) (io : DbOutcome) : Bool × Db :=
  match updateTaskStatusBody db id status now io with
  | .ok r => r
  | .error _ => (false, db)

/-- Lifecycle-signal emissions (`taskCreated` / `taskUpdated` /
`taskFinished`). -/
def Event.isLifecycleEmit : Event → Bool
  | .taskCreated _ => true
  | .taskUpdated _ => true
  | .taskFinished _ _ _ => true
  | _ => false

/-- Database writes. -/
def Event.isDbSave : Event → Bool
  | .dbSave _ => true
  | _ => false

/-- Executor submissions. -/
def Event.isSubmit : Event → Bool
  | .submit _ => true
  | _ => false

/-- Scans a trace left to right, requiring every lifecycle emission to be
preceded by some database write earlier in the trace. -/
def ppeAux : Bool → List Event → Bool
  | _, [] => true
  | seenSave, e :: rest =>
    if e.isDbSave then ppeAux true rest
    else if e.isLifecycleEmit then seenSave && ppeAux seenSave rest
    else ppeAux seenSave rest

/-- Persist-then-emit discipline of a trace: no lifecycle signal is
emitted before the first database write of the operation. -/
def persistPrecedesEmit (tr : List Event) : Bool := ppeAux false tr

/-- A concrete running download task, as produced by the pending→running
transition, used to instantiate the universally quantified theorems. -/
def sampleRunningTask : Task where
  id := "t1"
  type := "download"
  status := .running
  name := "demo"
  fileName := "BVdemo.mp4"
  description := ""
  url := "BVdemo"
  inputPath := ""
  outputPath := ""
  outputPaths := .list []
  logFile := ""
  progress := 37
  speed := ""
  eta := ""
  currentStep := ""
  totalSteps := 1
  currentStepIndex := 0
  fileSize := 0
  duration := 0
  createTime := some 1
  startTime := some 2
  endTime := none
  updateTime := some 2
  errorMsg := ""
  errorCode := ""
  retryCount := 0
  maxRetry := 3
  config := .dict []
  metadata := .dict [("source", "bilibili")]
  tags := .list []
  category := ""
  priority := 0

/-- A concrete failed download task (terminal state), used to instantiate
the restart theorem. -/
def sampleFailedTask : Task :=
  { sampleRunningTask with status := .failed, errorMsg := "no such video",
                           endTime := some 9, progress := 58 }

/-- The `(success, error_msg)` argument pairs of the `taskFinished`
emissions of a trace. -/
def finishedArgs (tr : List Event) : List (Bool × String) :=
  tr.filterMap (fun e =>
    match e with
    | .taskFinished _ b m => some (b, m)
    | _ => none)

/-- A concrete stored row whose four JSON columns are all malformed or
NULL, used to instantiate the rehydration-totality theorem. -/
def sampleBadRow : Row :=
  { sampleRunningTask.toRow with
      status := "failed"
      outputPaths := .malformed "not json"
      config := .null
      metadata := .malformed ""
      tags := .null }

theorem ppeAux_true (tr : List Event) : ppeAux true tr = true := by
  induction tr with
  | nil => rfl
  | cons e rest ih =>
    unfold ppeAux
    by_cases h1 : e.isDbSave = true
    · simp [h1, ih]
    · by_cases h2 : e.isLifecycleEmit = true <;> simp [h1, h2, ih]

theorem TaskStatus.ofValue_value (st : TaskStatus) :
    TaskStatus.ofValue st.value = some st := by
  cases st <;> rfl

theorem mem_eraseKey (l : List String) (id a : String) :
    a ∈ eraseKey l id ↔ a ∈ l ∧ a ≠ id := by
  simp [eraseKey, List.mem_filter]

theorem not_mem_eraseKey_self (l : List String) (id : String) :
    id ∉ eraseKey l id := by
  intro h
  exact ((mem_eraseKey l id id).mp h).2 rfl

theorem eraseKey_append_self (l : List String) (id : String) :
    eraseKey (l ++ [id]) id = eraseKey l id := by
  simp [eraseKey, List.filter_append]

theorem eraseKey_eraseKey (l : List String) (id : String) :
    eraseKey (eraseKey l id) id = eraseKey l id := by
  simp [eraseKey, List.filter_filter]

theorem insertKey_eraseKey (l : List String) (id : String) :
    insertKey (eraseKey l id) id = eraseKey l id ++ [id] := by
  simp [insertKey, not_mem_eraseKey_self]

theorem dbLookup_dbInsert (db : Db) (r : Row) :
    dbLookup (dbInsert db r) r.id = some r := by
  unfold dbLookup dbInsert
  induction db with
  | nil => simp
  | cons q rest ih =>
    by_cases h : q.id = r.id
    · simp only [List.filter_cons, h]
      simp only [bne_self_eq_false, Bool.false_eq_true, if_false]
      exact ih
    · have hbne : (q.id != r.id) = true := by simp [bne, h]
      simp only [List.filter_cons, hbne, if_true, List.cons_append, List.find?]
      have : (q.id == r.id) = false := by simp [h]
      rw [this]
      exact ih

theorem rowToTask_toRow (t : Task) : rowToTask t.toRow = some t := by
  unfold rowToTask Task.toRow
  rw [TaskStatus.ofValue_value]
  rfl

/-- C1 counterexample: cancelling a running task (here: a task whose
`endTime` is still null) yields a terminal status (`cancelled`) while
`endTime` stays null — `BaseService.cancel` never sets `endTime`, so the
claimed invariant fails as stated. -/
theorem c1_counterexample :
    (BaseService.cancel ["t1"] sampleRunningTask 5).task.status.isTerminal = true
    ∧ (BaseService.cancel ["t1"] sampleRunningTask 5).task.endTime = none := by
  constructor <;> rfl

/-- C1 (amended): whenever cancel, restart, or the completion handler
`_onWorkerFinished` leaves the task with a terminal status, the task's id
is absent from the in-flight futures map; `_onWorkerFinished`
additionally sets `endTime`, but `cancel` leaves `endTime` unchanged (so
a cancelled task may keep a null `endTime`), and `restart` always leaves
the task running (never terminal). -/
theorem c1_terminal_state_invariant (fut : List String) (t : Task) (now : Nat)
    (success : Bool) (msg : String) :
    ((BaseService.onWorkerFinished fut t now success msg).task.status.isTerminal = true
      ∧ (BaseService.onWorkerFinished fut t now success msg).task.endTime = some now
      ∧ t.id ∉ (BaseService.onWorkerFinished fut t now success msg).futures)
    ∧ ((BaseService.cancel fut t now).task.status.isTerminal = true
        → t.id ∉ (BaseService.cancel fut t now).futures)
    ∧ (BaseService.restart BilibiliService.start fut t now).task.status = .running := by
  refine ⟨⟨?_, ?_, ?_⟩, ?_, ?_⟩
  · cases success <;> rfl
  · cases success <;> rfl
  · show t.id ∉ eraseKey fut t.id
    exact not_mem_eraseKey_self fut t.id
  · intro hterm
    by_cases h : t.id ∈ fut
    · simp [BaseService.cancel, h]
      exact not_mem_eraseKey_self fut t.id
    · simp [BaseService.cancel, h]
  · simp [BaseService.restart, BilibiliService.start, not_mem_eraseKey_self]

/-- C1 witness: the amended invariant applied to a concrete running task
being cancelled. -/
theorem c1_witness :
    sampleRunningTask.id ∉ (BaseService.cancel ["t1"] sampleRunningTask 5).futures :=
  (c1_terminal_state_invariant ["t1"] sampleRunningTask 5 true "").2.1 (by decide)

/-- C2: calling start on a task whose id is already in the in-flight map
is rejected: it returns False, leaves every field of the task and the map
unchanged, submits nothing to the executor, writes nothing to the
database, and emits no lifecycle signal — both for
`BilibiliService.start` and for the shared helper
`BaseDownloadService._createDownloadTask`. -/
theorem c2_duplicate_start_rejected (fut : List String) (t : Task) (now : Nat)
    (h : t.id ∈ fut) :
    (BilibiliService.start fut t now).retB = false
    ∧ (BilibiliService.start fut t now).task = t
    ∧ (BilibiliService.start fut t now).futures = fut
    ∧ (BilibiliService.start fut t now).trace.all
        (fun e => !e.isDbSave && !e.isSubmit && !e.isLifecycleEmit) = true
    ∧ (BaseDownloadService.createDownloadTask fut t now).retB = false
    ∧ (BaseDownloadService.createDownloadTask fut t now).task = t
    ∧ (BaseDownloadService.createDownloadTask fut t now).futures = fut
    ∧ (BaseDownloadService.createDownloadTask fut t now).trace.all
        (fun e => !e.isDbSave && !e.isSubmit && !e.isLifecycleEmit) = true := by
  simp [BilibiliService.start, BaseDownloadService.createDownloadTask, h,
        Event.isDbSave, Event.isSubmit, Event.isLifecycleEmit]

/-- C2 witness: the duplicate-start rejection at a concrete in-flight
task. -/
theorem c2_witness :
    (BilibiliService.start ["t1"] sampleRunningTask 7).retB = false :=
  (c2_duplicate_start_rejected ["t1"] sampleRunningTask 7 (by decide)).1

/-- C3 counterexample: on success the Bilibili service emits
`taskFinished(task, True, "下载完成")` — the error-message argument is
the non-empty string "下载完成", not the empty string the claim states. -/
theorem c3_counterexample :
    finishedArgs
        (BilibiliService.onDownloadSuccess ["t1"] sampleRunningTask 9
          "/out/file.mp4").trace
      = [(true, "下载完成")]
    ∧ ("下载完成" : String) ≠ "" := by
  refine ⟨rfl, by decide⟩

/-- C3 (amended): the success handler leaves the task with status
success, progress 100, `outputPath` set to the returned path and
`endTime` set, persists it, and emits
`taskFinished(task, True, "下载完成")` — with the fixed non-empty message
"下载完成" as third argument rather than the empty string. -/
theorem c3_success_contract (fut : List String) (t : Task) (now : Nat)
    (path : String) :
    (BilibiliService.onDownloadSuccess fut t now path).task.status = .success
    ∧ (BilibiliService.onDownloadSuccess fut t now path).task.progress = 100
    ∧ (BilibiliService.onDownloadSuccess fut t now path).task.outputPath = path
    ∧ (BilibiliService.onDownloadSuccess fut t now path).task.endTime = some now
    ∧ (BilibiliService.onDownloadSuccess fut t now path).trace
        = [.log "INFO" ("任务完成: " ++ t.name),
           .dbSave (BilibiliService.onDownloadSuccess fut t now path).task,
           .taskFinished (BilibiliService.onDownloadSuccess fut t now path).task
             true "下载完成"]
    ∧ t.id ∉ (BilibiliService.onDownloadSuccess fut t now path).futures :=
  ⟨rfl, rfl, rfl, rfl, rfl, not_mem_eraseKey_self fut t.id⟩

/-- C4: the failure handler leaves the task with status failed and
`errorMsg` set to the message extracted from the error object, sets
`endTime`, persists the task, and emits
`taskFinished(task, False, errorMsg)`; the handler is a total function
(the error value is consumed, never re-raised), and the task's id is
dropped from the in-flight map. -/
theorem c4_failure_contract (fut : List String) (t : Task) (now : Nat)
    (err : BilibiliService.ErrObj) :
    (BilibiliService.onDownloadFailed fut t now err).task.status = .failed
    ∧ (BilibiliService.onDownloadFailed fut t now err).task.errorMsg
        = BilibiliService.errMsgOf err
    ∧ (BilibiliService.onDownloadFailed fut t now err).task.endTime = some now
    ∧ (BilibiliService.onDownloadFailed fut t now err).trace
        = [.log "ERROR"
             ("任务失败: " ++ t.name ++ " - " ++ BilibiliService.errMsgOf err),
           .dbSave (BilibiliService.onDownloadFailed fut t now err).task,
           .taskFinished (BilibiliService.onDownloadFailed fut t now err).task
             false (BilibiliService.errMsgOf err)]
    ∧ t.id ∉ (BilibiliService.onDownloadFailed fut t now err).futures :=
  ⟨rfl, rfl, rfl, rfl, not_mem_eraseKey_self fut t.id⟩

/-- C5: cancel returns True exactly when the task's id is in the
in-flight map; in that case it removes the id, sets status cancelled,
persists (which stamps `updateTime`), and emits `taskUpdated` after the
write; otherwise it returns False leaving the task object, the map, and
the outside world untouched. -/
theorem c5_cancel_contract (fut : List String) (t : Task) (now : Nat) :
    ((BaseService.cancel fut t now).retB = true ↔ t.id ∈ fut)
    ∧ (t.id ∈ fut →
        (BaseService.cancel fut t now).futures = eraseKey fut t.id
        ∧ t.id ∉ (BaseService.cancel fut t now).futures
        ∧ (BaseService.cancel fut t now).task
            = { t with status := .cancelled, updateTime := some now }
        ∧ (BaseService.cancel fut t now).trace
            = [.dbSave ((BaseService.cancel fut t now).task),
               .taskUpdated ((BaseService.cancel fut t now).task),
               .log "INFO" ("任务已取消: " ++ t.name)])
    ∧ (t.id ∉ fut →
        (BaseService.cancel fut t now).retB = false
        ∧ (BaseService.cancel fut t now).task = t
        ∧ (BaseService.cancel fut t now).futures = fut
        ∧ (BaseService.cancel fut t now).trace = []) := by
  by_cases h : t.id ∈ fut <;>
    simp [BaseService.cancel, h, not_mem_eraseKey_self]

/-- C5 witness: both branches of the cancel contract at concrete inputs:
a task in the in-flight map is cancelled and mutated, a task outside it
is left alone. -/
theorem c5_witness :
    (BaseService.cancel ["t1"] sampleRunningTask 5).task
      = { sampleRunningTask with status := .cancelled, updateTime := some 5 }
    ∧ (BaseService.cancel [] sampleRunningTask 5).retB = false :=
  ⟨((c5_cancel_contract ["t1"] sampleRunningTask 5).2.1 (by decide)).2.2.1,
   ((c5_cancel_contract [] sampleRunningTask 5).2.2 (by decide)).1⟩

/-- C6: a fault-free save followed by get of the same id returns a Task
equal in every persisted field to the saved task (whose `updateTime` the
save stamped): status is rehydrated through its enum value string,
timestamps through their iso text, and the four JSON-shaped fields
through their JSON encoding. -/
theorem c6_save_get_roundtrip (db : Db) (t : Task) (now : Nat) :
    (save_task db t now .ok).1 = true
    ∧ (save_task db t now .ok).2.2 = { t with updateTime := some now }
    ∧ get_task (save_task db t now .ok).2.1 t.id .ok
        = some ((save_task db t now .ok).2.2) := by
  refine ⟨rfl, rfl, ?_⟩
  show get_task (dbInsert db ({ t with updateTime := some now } : Task).toRow)
      t.id .ok = some { t with updateTime := some now }
  unfold get_task getTaskBody
  have h1 : dbLookup
      (dbInsert db ({ t with updateTime := some now } : Task).toRow) t.id
      = some ({ t with updateTime := some now } : Task).toRow :=
    dbLookup_dbInsert db ({ t with updateTime := some now } : Task).toRow
  rw [h1]
  simp [rowToTask_toRow]

/-- C7: every operation that both persists the task and emits a lifecycle
signal (create, start, cancel, progress update, completion) performs the
database write before the corresponding emission — checked on the full
event trace of each operation, over all inputs. -/
theorem c7_persist_then_emit (fut : List String) (t : Task) (now : Nat)
    (success : Bool) (msg : String) (p : Rat) (sp et : String)
    (url : String) (path : String) (err : BilibiliService.ErrObj) :
    persistPrecedesEmit (BilibiliService.start fut t now).trace = true
    ∧ persistPrecedesEmit (BaseService.cancel fut t now).trace = true
    ∧ persistPrecedesEmit
        (BaseService.onWorkerProgress fut t now p sp et).trace = true
    ∧ persistPrecedesEmit
        (BaseService.onWorkerFinished fut t now success msg).trace = true
    ∧ persistPrecedesEmit
        (BaseService.restart BilibiliService.start fut t now).trace = true
    ∧ persistPrecedesEmit (BilibiliService.createTask fut url now).2.2 = true
    ∧ persistPrecedesEmit
        (BaseDownloadService.createDownloadTask fut t now).trace = true
    ∧ persistPrecedesEmit
        (BilibiliService.onDownloadSuccess fut t now path).trace = true
    ∧ persistPrecedesEmit
        (BilibiliService.onDownloadFailed fut t now err).trace = true := by
  refine ⟨?_, ?_, ?_, ?_, ?_, ?_, ?_, ?_, ?_⟩
  · by_cases h : t.id ∈ fut <;>
      simp [BilibiliService.start, h, persistPrecedesEmit, ppeAux,
            Event.isDbSave, Event.isLifecycleEmit]
  · by_cases h : t.id ∈ fut <;>
      simp [BaseService.cancel, h, persistPrecedesEmit, ppeAux,
            Event.isDbSave, Event.isLifecycleEmit]
  · rfl
  · cases success <;> rfl
  · simp [BaseService.restart, persistPrecedesEmit, ppeAux,
          Event.isDbSave, ppeAux_true]
  · cases hbv : BilibiliService.extractBvId url <;>
      simp [BilibiliService.createTask, hbv, BilibiliService.taskCtorBilibili,
            persistPrecedesEmit, ppeAux, Event.isDbSave, Event.isLifecycleEmit]
  · by_cases h : t.id ∈ fut <;>
      simp [BaseDownloadService.createDownloadTask, h, persistPrecedesEmit,
            ppeAux, Event.isDbSave, Event.isLifecycleEmit]
  · rfl
  · rfl

/-- C8: restart resets progress to 0, `errorMsg` to "", `startTime` and
`endTime` to null, persists the reset task with status pending (the first
database write of the trace), then re-enters start so the task ends up
running with a fresh `startTime`; a second restart from the resulting
state performs exactly the same resets and yields the identical result. -/
theorem c8_restart_contract (fut : List String) (t : Task) (now : Nat)
    (_terminal : t.status.isTerminal = true) :
    (BaseService.restart BilibiliService.start fut t now).retB = true
    ∧ (BaseService.restart BilibiliService.start fut t now).task.status = .running
    ∧ (BaseService.restart BilibiliService.start fut t now).task.progress = 0
    ∧ (BaseService.restart BilibiliService.start fut t now).task.errorMsg = ""
    ∧ (BaseService.restart BilibiliService.start fut t now).task.endTime = none
    ∧ (BaseService.restart BilibiliService.start fut t now).task.startTime
        = some now
    ∧ (BaseService.restart BilibiliService.start fut t now).trace.head?
        = some (.dbSave { t with status := .pending, progress := 0,
                                 errorMsg := "", startTime := none,
                                 endTime := none, updateTime := some now })
    ∧ BaseService.restart BilibiliService.start
        (BaseService.restart BilibiliService.start fut t now).futures
        (BaseService.restart BilibiliService.start fut t now).task now
      = BaseService.restart BilibiliService.start fut t now := by
  have hkey : eraseKey (insertKey (eraseKey fut t.id) t.id) t.id
      = eraseKey fut t.id := by
    rw [insertKey_eraseKey, eraseKey_append_self, eraseKey_eraseKey]
  refine ⟨?_, ?_, ?_, ?_, ?_, ?_, ?_, ?_⟩ <;>
    simp [BaseService.restart, BilibiliService.start, not_mem_eraseKey_self,
          hkey]

/-- C8 witness: restarting a concrete failed task ends running. -/
theorem c8_witness :
    (BaseService.restart BilibiliService.start [] sampleFailedTask 5).task.status
      = .running :=
  (c8_restart_contract [] sampleFailedTask 5 (by decide)).2.1

/-- C9: an exception raised by the sqlite machinery inside save_task,
delete_task, or update_task_status is caught at the storage boundary and
surfaced as a False return with the table untouched, never propagated;
and save_task returns True exactly when the write went through. -/
theorem c9_db_error_boundary (db : Db) (t : Task) (now : Nat) (id : String)
    (st : TaskStatus) (e : String) :
    save_task db t now (.raise e) = (false, db, t)
    ∧ delete_task db id (.raise e) = (false, db)
    ∧ update_task_status db id st now (.raise e) = (false, db)
    ∧ (∀ io : DbOutcome, ((save_task db t now io).1 = true ↔ io = .ok)) := by
  refine ⟨rfl, rfl, rfl, ?_⟩
  intro io
  cases io <;> simp [save_task, saveTaskBody]

/-- C9 witness: a concrete fault in save_task is absorbed into a False
return. -/
theorem c9_witness :
    save_task [] sampleRunningTask 3 (.raise "sqlite3.OperationalError")
      = (false, [], sampleRunningTask) :=
  (c9_db_error_boundary [] sampleRunningTask 3 "x" .pending
    "sqlite3.OperationalError").1

/-- C10: row rehydration is total on the JSON columns: for any stored row
(with a valid status string), `_row_to_task` returns a Task, and every
JSON column holding malformed JSON, empty text, or NULL is replaced by
the empty list (outputPaths, tags) or the empty dict (config,
metadata). -/
theorem c10_rehydration_total (r : Row) (st : TaskStatus)
    (h : TaskStatus.ofValue r.status = some st) :
    ∃ t : Task, rowToTask r = some t
      ∧ (r.outputPaths.isBadOrNull = true → t.outputPaths = .list [])
      ∧ (r.tags.isBadOrNull = true → t.tags = .list [])
      ∧ (r.config.isBadOrNull = true → t.config = .dict [])
      ∧ (r.metadata.isBadOrNull = true → t.metadata = .dict []) := by
  unfold rowToTask
  rw [h]
  refine ⟨_, rfl, ?_, ?_, ?_, ?_⟩ <;> intro hb
  · cases hc : r.outputPaths <;>
      simp_all [decodeJsonCol, Col.isBadOrNull]
  · cases hc : r.tags <;>
      simp_all [decodeJsonCol, Col.isBadOrNull]
  · cases hc : r.config <;>
      simp_all [decodeJsonCol, Col.isBadOrNull]
  · cases hc : r.metadata <;>
      simp_all [decodeJsonCol, Col.isBadOrNull]

/-- C10 witness: rehydration of a concrete row whose JSON columns are all
malformed, empty, or NULL. -/
theorem c10_witness :
    ∃ t : Task, rowToTask sampleBadRow = some t
      ∧ (sampleBadRow.outputPaths.isBadOrNull = true → t.outputPaths = .list [])
      ∧ (sampleBadRow.tags.isBadOrNull = true → t.tags = .list [])
      ∧ (sampleBadRow.config.isBadOrNull = true → t.config = .dict [])
      ∧ (sampleBadRow.metadata.isBadOrNull = true → t.metadata = .dict []) :=
  c10_rehydration_total sampleBadRow .failed (by decide)

end Shinobu
